import Mathlib

/-!
Shallow embedding of the tax computation engine of the repository
(entity classification into SMALL/STANDARD and the VAT engine:
rate-by-year resolution, invoice VAT calculation, period position
aggregation with carry-forward, and invoice validation).

Monetary amounts and rates are modelled as rationals (ℚ), which is the
exact arithmetic the spec states for the engine.  JavaScript `Date`
values are modelled as a calendar-date structure `JSDate` compared
lexicographically (year, month, day), matching timestamp order for
calendar dates.  Locale-dependent number rendering
(`toLocaleString("en-NG", ...)`) is abstracted as `toString` of the
rational: the claims never constrain the digits of a rendered amount,
only which summary lines are appended.
-/

namespace TaxEngine

/-- Calendar date, the model of a parsed JavaScript `Date`
(year component as returned by `getFullYear`). -/
structure JSDate where
  year : Int
  month : Nat
  day : Nat
deriving DecidableEq

/-- Date comparison, the model of JavaScript `Date` order (`<=` on
timestamps): lexicographic on (year, month, day). -/
def JSDate.le (a b : JSDate) : Bool :=
  if a.year < b.year then true
  else if b.year < a.year then false
  else if a.month < b.month then true
  else if b.month < a.month then false
  else decide (a.day ≤ b.day)

/-- Model of `amount.toLocaleString("en-NG", ...)`: rendering of an
amount as a string.  The exact digit/grouping format is irrelevant to
every claim, so rendering is abstracted as `toString`. -/
def formatCurrency (amount : ℚ) : String :=
  toString amount

-- =====================================================
-- ENTITY CLASSIFICATION ENGINE (entity-classification.ts)
-- =====================================================

structure ClassificationInput where
  turnover : ℚ
  fixedAssets : ℚ
  isProfessionalServices : Bool
  industryCode : Option String := none
deriving DecidableEq

inductive Classification where
  | SMALL
  | STANDARD
deriving DecidableEq

structure ThresholdsSnapshot where
  turnoverThreshold : ℚ
  assetsThreshold : ℚ
  turnoverMet : Bool
  assetsMet : Bool
deriving DecidableEq

structure TaxImplications where
  citRate : ℚ
  devLevyRate : ℚ
  vatApplicable : Bool
deriving DecidableEq

structure ClassificationResult where
  classification : Classification
  citExempt : Bool
  devLevyApplicable : Bool
  reasoning : List String
  thresholds : ThresholdsSnapshot
  taxImplications : TaxImplications
deriving DecidableEq

namespace CLASSIFICATION_THRESHOLDS

def TURNOVER_THRESHOLD : ℚ := 50000000

def ASSETS_THRESHOLD : ℚ := 250000000

end CLASSIFICATION_THRESHOLDS

namespace TAX_RATES

def CIT_2025 : ℚ := 275 / 1000

def CIT_2026_ONWARDS : ℚ := 25 / 100

def DEV_LEVY_2025_2026 : ℚ := 4 / 100

def DEV_LEVY_2027_2029 : ℚ := 3 / 100

def DEV_LEVY_2030_ONWARDS : ℚ := 2 / 100

end TAX_RATES

inductive FailureReason where
  | professional_services
  | turnover
  | assets
  | both_thresholds
deriving DecidableEq

/-- Model of `buildStandardResult` from entity-classification.ts: builds a
STANDARD classification result.  Note the tax implication rates are the
fixed constants `CIT_2026_ONWARDS` and `DEV_LEVY_2025_2026`, independent
of any evaluation year. -/
def buildStandardResult (input : ClassificationInput) (reasoning : List String)
    (_failureReason : FailureReason) : ClassificationResult :=
  let reasoning := reasoning ++
    ["",
     "❌ CLASSIFICATION: STANDARD COMPANY",
     "Tax implications:",
     "  • Subject to Company Income Tax (CIT) at 25% (from 2026)",
     "  • Subject to Development Levy at 4% (2025-2026)",
     "  • Subject to VAT at applicable rates"]
  let turnoverMet : Bool :=
    decide (input.turnover ≤ CLASSIFICATION_THRESHOLDS.TURNOVER_THRESHOLD)
  let assetsMet : Bool :=
    decide (input.fixedAssets ≤ CLASSIFICATION_THRESHOLDS.ASSETS_THRESHOLD)
  { classification := Classification.STANDARD
    citExempt := false
    devLevyApplicable := true
    reasoning := reasoning
    thresholds :=
      { turnoverThreshold := CLASSIFICATION_THRESHOLDS.TURNOVER_THRESHOLD
        assetsThreshold := CLASSIFICATION_THRESHOLDS.ASSETS_THRESHOLD
        turnoverMet := turnoverMet
        assetsMet := assetsMet }
    taxImplications :=
      { citRate := TAX_RATES.CIT_2026_ONWARDS
        devLevyRate := TAX_RATES.DEV_LEVY_2025_2026
        vatApplicable := true } }

/-- Model of `classifyEntity` from entity-classification.ts.  The `throw` on
negative inputs is modelled as `Except.error`. -/
def classifyEntity (input : ClassificationInput) :
    Except String ClassificationResult :=
  if input.turnover < 0 ∨ input.fixedAssets < 0 then
    Except.error "Turnover and fixed assets must be non-negative"
  else if input.isProfessionalServices then
    Except.ok (buildStandardResult input
      ["❌ Professional services exclusion",
       "Professional services businesses cannot qualify as SMALL companies per Section 56"]
      FailureReason.professional_services)
  else
    let turnoverMet : Bool :=
      decide (input.turnover ≤ CLASSIFICATION_THRESHOLDS.TURNOVER_THRESHOLD)
    let assetsMet : Bool :=
      decide (input.fixedAssets ≤ CLASSIFICATION_THRESHOLDS.ASSETS_THRESHOLD)
    let reasoning : List String :=
      [(if turnoverMet then
          "✓ Turnover test: ₦" ++ formatCurrency input.turnover ++ " ≤ ₦" ++
            formatCurrency CLASSIFICATION_THRESHOLDS.TURNOVER_THRESHOLD
        else
          "✗ Turnover test: ₦" ++ formatCurrency input.turnover ++ " > ₦" ++
            formatCurrency CLASSIFICATION_THRESHOLDS.TURNOVER_THRESHOLD),
       (if assetsMet then
          "✓ Assets test: ₦" ++ formatCurrency input.fixedAssets ++ " ≤ ₦" ++
            formatCurrency CLASSIFICATION_THRESHOLDS.ASSETS_THRESHOLD
        else
          "✗ Assets test: ₦" ++ formatCurrency input.fixedAssets ++ " > ₦" ++
            formatCurrency CLASSIFICATION_THRESHOLDS.ASSETS_THRESHOLD)]
    let isSmall : Bool := turnoverMet && assetsMet
    if isSmall then
      Except.ok
        { classification := Classification.SMALL
          citExempt := true
          devLevyApplicable := false
          reasoning := reasoning ++
            ["",
             "✅ CLASSIFICATION: SMALL COMPANY",
             "Tax implications:",
             "  • EXEMPT from Company Income Tax (CIT)",
             "  • NOT subject to Development Levy",
             "  • Subject to VAT at applicable rates"]
          thresholds :=
            { turnoverThreshold := CLASSIFICATION_THRESHOLDS.TURNOVER_THRESHOLD
              assetsThreshold := CLASSIFICATION_THRESHOLDS.ASSETS_THRESHOLD
              turnoverMet := turnoverMet
              assetsMet := assetsMet }
          taxImplications :=
            { citRate := 0
              devLevyRate := 0
              vatApplicable := true } }
    else
      let failureReason : FailureReason :=
        if !turnoverMet && !assetsMet then FailureReason.both_thresholds
        else if !turnoverMet then FailureReason.turnover
        else FailureReason.assets
      Except.ok (buildStandardResult input reasoning failureReason)

/-- Model of `getCITRate` from entity-classification.ts (the wall-clock default
argument `getCurrentTaxYear()` is not modelled; the year is explicit). -/
def getCITRate (year : Int) : ℚ :=
  if year = 2025 then TAX_RATES.CIT_2025 else TAX_RATES.CIT_2026_ONWARDS

/-- Model of `getDevelopmentLevyRate` from entity-classification.ts. -/
def getDevelopmentLevyRate (year : Int) : ℚ :=
  if 2025 ≤ year ∧ year ≤ 2026 then TAX_RATES.DEV_LEVY_2025_2026
  else if 2027 ≤ year ∧ year ≤ 2029 then TAX_RATES.DEV_LEVY_2027_2029
  else TAX_RATES.DEV_LEVY_2030_ONWARDS

-- =====================================================
-- VAT COMPUTATION ENGINE (vat-computation source file)
-- =====================================================

inductive InvoiceType where
  | OUTPUT
  | INPUT
deriving DecidableEq, BEq

structure VATLineItem where
  description : String
  quantity : ℚ
  unitPrice : ℚ
  isBasicItem : Option Bool := none
deriving DecidableEq

structure VATInvoice where
  invoiceNumber : String
  invoiceDate : JSDate
  customerName : String
  customerTIN : Option String := none
  grossAmount : ℚ
  vatRate : ℚ
  vatAmount : ℚ
  totalAmount : ℚ
  invoiceType : InvoiceType
  isBasicItem : Option Bool := none
  lineItems : Option (List VATLineItem) := none
deriving DecidableEq

/-- The per-line breakdown entry of a `VATInvoiceCalculation`
(the source spreads the line item and adds lineTotal, vat, total). -/
structure CalculatedLineItem where
  description : String
  quantity : ℚ
  unitPrice : ℚ
  isBasicItem : Option Bool := none
  lineTotal : ℚ
  vat : ℚ
  total : ℚ
deriving DecidableEq

structure VATInvoiceCalculation where
  invoiceNumber : String
  invoiceDate : JSDate
  subtotal : ℚ
  vatRate : ℚ
  vatAmount : ℚ
  totalAmount : ℚ
  lineItems : List CalculatedLineItem
deriving DecidableEq

structure InvoiceCountSnapshot where
  output : Nat
  input : Nat
  total : Nat
deriving DecidableEq

structure VATPosition where
  period : String
  periodStart : JSDate
  periodEnd : JSDate
  outputVAT : ℚ
  inputVAT : ℚ
  netVATPayable : ℚ
  excessCredit : ℚ
  invoiceCount : InvoiceCountSnapshot
  summary : List String
deriving DecidableEq

namespace VAT_RATES

def BASIC_ITEMS : ℚ := 0

def STANDARD_2025 : ℚ := 1 / 10

def STANDARD_2026_2029 : ℚ := 125 / 1000

def STANDARD_2030 : ℚ := 15 / 100

end VAT_RATES

def BASIC_ITEMS_KEYWORDS : List String :=
  ["bread", "rice", "maize", "wheat", "millet", "barley", "sorghum", "oats",
   "beans", "milk", "fish", "meat", "chicken", "egg",
   "cooking oil", "palm oil", "vegetable oil", "salt",
   "yam", "cassava", "potato", "plantain", "garri",
   "honey", "flour"]

/-- Model of `getVATRate` from the VAT engine (wall-clock default argument not
modelled; the date is explicit). -/
def getVATRate (date : JSDate) : ℚ :=
  let year := date.year
  if year = 2025 then VAT_RATES.STANDARD_2025
  else if 2026 ≤ year ∧ year ≤ 2029 then VAT_RATES.STANDARD_2026_2029
  else VAT_RATES.STANDARD_2030

/-- Substring containment on character lists, the model of JavaScript
`String.prototype.includes`. -/
def containsSub : List Char → List Char → Bool
  | [], sub => sub.isEmpty
  | c :: rest, sub => sub.isPrefixOf (c :: rest) || containsSub rest sub

/-- Leading- and trailing-whitespace removal on character lists, the
model of JavaScript `String.prototype.trim`. -/
def trimChars (l : List Char) : List Char :=
  ((l.dropWhile Char.isWhitespace).reverse.dropWhile Char.isWhitespace).reverse

/-- Model of `isBasicItem` from the VAT engine: case-insensitive keyword match of
the description against `BASIC_ITEMS_KEYWORDS`.  The JavaScript
`toLowerCase().trim()` normalization is modelled on the character list
of the string. -/
def isBasicItem (description : String) : Bool :=
  let normalized := trimChars (description.data.map Char.toLower)
  BASIC_ITEMS_KEYWORDS.any (fun keyword =>
    containsSub normalized keyword.data)

/-- Model of `getApplicableVATRate` from the VAT engine. -/
def getApplicableVATRate (description : String) (invoiceDate : JSDate) : ℚ :=
  if isBasicItem description then VAT_RATES.BASIC_ITEMS
  else getVATRate invoiceDate

/-- Input shape of `calculateInvoiceVAT`. -/
structure CalcInvoiceInput where
  invoiceNumber : String
  invoiceDate : JSDate
  customerName : String
  lineItems : List VATLineItem
deriving DecidableEq

/-- The body of the `map` inside `calculateInvoiceVAT`, for one line
item: `lineTotal = quantity × unitPrice`; the applicable rate is zero
exactly when the optional `isBasicItem` flag is truthy (JavaScript
`item.isBasicItem ? 0 : rate` — only an explicit `true` zero-rates the
line, modelled as `Option.getD false`); `vat = lineTotal × rate`. -/
def calcLineItem (standardRate : ℚ) (item : VATLineItem) : CalculatedLineItem :=
  let lineTotal := item.quantity * item.unitPrice
  let applicableRate :=
    if item.isBasicItem.getD false then VAT_RATES.BASIC_ITEMS else standardRate
  let lineVAT := lineTotal * applicableRate
  { description := item.description
    quantity := item.quantity
    unitPrice := item.unitPrice
    isBasicItem := item.isBasicItem
    lineTotal := lineTotal
    vat := lineVAT
    total := lineTotal + lineVAT }

/-- Model of `calculateInvoiceVAT` from the VAT engine.  The source accumulates
`subtotal` and `totalVAT` imperatively while mapping over the line
items; that is modelled as a left fold carrying
(items so far, subtotal so far, totalVAT so far), with `calcLineItem`
as the per-item computation of the loop body. -/
def calculateInvoiceVAT (invoice : CalcInvoiceInput) : VATInvoiceCalculation :=
  let invoiceDate := invoice.invoiceDate
  let standardRate := getVATRate invoiceDate
  let state := invoice.lineItems.foldl
    (fun (acc : List CalculatedLineItem × ℚ × ℚ) item =>
      (acc.1 ++ [calcLineItem standardRate item],
       acc.2.1 + (calcLineItem standardRate item).lineTotal,
       acc.2.2 + (calcLineItem standardRate item).vat))
    ([], 0, 0)
  { invoiceNumber := invoice.invoiceNumber
    invoiceDate := invoice.invoiceDate
    subtotal := state.2.1
    vatRate := standardRate
    vatAmount := state.2.2
    totalAmount := state.2.1 + state.2.2
    lineItems := state.1 }

/-- Model of `calculateSimpleVAT` from the VAT engine. -/
def calculateSimpleVAT (grossAmount : ℚ) (invoiceDate : JSDate)
    (basic : Bool := false) : ℚ :=
  if basic then 0 else grossAmount * getVATRate invoiceDate

/-- Model of `date.toLocaleDateString("en-NG", ...)`: rendering of a
date as a string; the exact format is irrelevant to every claim. -/
def formatDate (date : JSDate) : String :=
  toString date.year ++ "-" ++ toString date.month ++ "-" ++ toString date.day

/-- Model of `computeVATPosition` from the VAT engine.  The `reduce` sums are
modelled as left folds starting at 0, exactly as in the source. -/
def computeVATPosition (invoices : List VATInvoice)
    (periodStart periodEnd : JSDate) : VATPosition :=
  let periodInvoices := invoices.filter (fun inv =>
    JSDate.le periodStart inv.invoiceDate && JSDate.le inv.invoiceDate periodEnd)
  let outputInvoices := periodInvoices.filter
    (fun inv => inv.invoiceType == InvoiceType.OUTPUT)
  let outputVAT := outputInvoices.foldl (fun sum inv => sum + inv.vatAmount) 0
  let inputInvoices := periodInvoices.filter
    (fun inv => inv.invoiceType == InvoiceType.INPUT)
  let inputVAT := inputInvoices.foldl (fun sum inv => sum + inv.vatAmount) 0
  let netVATPayable := max 0 (outputVAT - inputVAT)
  let excessCredit := max 0 (inputVAT - outputVAT)
  let summary : List String :=
    ["VAT Position for " ++ formatDate periodStart ++ " to " ++ formatDate periodEnd,
     "",
     "Output VAT (Sales): ₦" ++ formatCurrency outputVAT,
     "  From " ++ toString outputInvoices.length ++ " sales invoices",
     "",
     "Input VAT (Purchases): ₦" ++ formatCurrency inputVAT,
     "  From " ++ toString inputInvoices.length ++ " purchase invoices",
     ""] ++
    (if 0 < netVATPayable then
       ["Net VAT Payable: ₦" ++ formatCurrency netVATPayable,
        "Action: Remit to FIRS by 21st of following month"]
     else if 0 < excessCredit then
       ["Excess Credit: ₦" ++ formatCurrency excessCredit,
        "Action: Carry forward to next period"]
     else
       ["Net VAT Position: ₦0.00 (balanced)"])
  { period := formatDate periodStart ++ " to " ++ formatDate periodEnd
    periodStart := periodStart
    periodEnd := periodEnd
    outputVAT := outputVAT
    inputVAT := inputVAT
    netVATPayable := netVATPayable
    excessCredit := excessCredit
    invoiceCount :=
      { output := outputInvoices.length
        input := inputInvoices.length
        total := periodInvoices.length }
    summary := summary }

/-- One period input of `computeCumulativeVATPosition`; the source field
`end` is a Lean keyword, so the fields are `startDate`/`endDate`. -/
structure PeriodInput where
  invoices : List VATInvoice
  startDate : JSDate
  endDate : JSDate
deriving DecidableEq

/-- The loop body of `computeCumulativeVATPosition` for one period:
given the running carry-forward credit and the standalone position,
returns the (possibly adjusted) position and the updated credit. -/
def cumulStep (carryForwardCredit : ℚ) (position : VATPosition) :
    VATPosition × ℚ :=
  if 0 < carryForwardCredit then
    let adjustedPayable := max 0 (position.netVATPayable - carryForwardCredit)
    let creditUsed := position.netVATPayable - adjustedPayable
    let position :=
      { position with
          netVATPayable := adjustedPayable
          summary := position.summary ++
            ["", "Carry-forward credit applied: ₦" ++ formatCurrency creditUsed] }
    (position, carryForwardCredit - creditUsed + position.excessCredit)
  else
    (position, carryForwardCredit + position.excessCredit)

/-- The loop of `computeCumulativeVATPosition`: left-to-right over the
periods, threading the carry-forward credit; returns the positions and
the final credit. -/
def cumulAux (carryForwardCredit : ℚ) :
    List PeriodInput → List VATPosition × ℚ
  | [] => ([], carryForwardCredit)
  | period :: rest =>
    let position := computeVATPosition period.invoices period.startDate period.endDate
    let step := cumulStep carryForwardCredit position
    let tail := cumulAux step.2 rest
    (step.1 :: tail.1, tail.2)

/-- Model of `computeCumulativeVATPosition` from the VAT engine:
`carryForwardCredit` starts at 0 and the positions are returned. -/
def computeCumulativeVATPosition (periods : List PeriodInput) :
    List VATPosition :=
  (cumulAux 0 periods).1

/-- JavaScript truthiness of an optional string field (`undefined` and
`""` are falsy). -/
def truthyStr : Option String → Bool
  | some s => !(s == "")
  | none => false

/-- JavaScript truthiness of an optional number field (`undefined` and
`0` are falsy). -/
def truthyNum : Option ℚ → Bool
  | some q => !(q == 0)
  | none => false

/-- Model of `Partial<VATInvoice>`: every field optional. -/
structure PartialVATInvoice where
  invoiceNumber : Option String := none
  invoiceDate : Option String := none
  customerName : Option String := none
  customerTIN : Option String := none
  grossAmount : Option ℚ := none
  vatRate : Option ℚ := none
  vatAmount : Option ℚ := none
  totalAmount : Option ℚ := none
  invoiceType : Option String := none
deriving DecidableEq

structure ValidationResult where
  valid : Bool
  errors : List String
deriving DecidableEq

/-- Model of `validateVATInvoice` from the VAT engine.  The sequential pushes
onto the `errors` array are modelled as the concatenation of the
per-check error lists, in source order.  `new Date(s)` parsing followed
by the `isNaN(date.getTime())` test is abstracted as an explicit
`parseDate` argument returning `none` exactly when the source date is
unparseable. -/
def validateVATInvoice (parseDate : String → Option JSDate)
    (invoice : PartialVATInvoice) : ValidationResult :=
  let errors : List String :=
    (if !truthyStr invoice.invoiceNumber then ["Invoice number is required"]
     else []) ++
    (match invoice.invoiceDate with
     | none => ["Invoice date is required"]
     | some s =>
       if s == "" then ["Invoice date is required"]
       else if (parseDate s).isNone then ["Invalid invoice date format"]
       else []) ++
    (if !truthyStr invoice.customerName then ["Customer name is required"]
     else []) ++
    (if !truthyNum invoice.grossAmount || decide (invoice.grossAmount.getD 0 < 0)
     then ["Valid gross amount is required"] else []) ++
    (if !truthyStr invoice.invoiceType ||
        !(["OUTPUT", "INPUT"].contains (invoice.invoiceType.getD ""))
     then ["Invoice type must be OUTPUT or INPUT"] else []) ++
    (if truthyNum invoice.grossAmount && invoice.vatRate.isSome then
       let expectedVAT := invoice.grossAmount.getD 0 * invoice.vatRate.getD 0
       let tolerance : ℚ := 1 / 100
       if tolerance < |invoice.vatAmount.getD 0 - expectedVAT| then
         ["VAT amount does not match gross amount × VAT rate"]
       else []
     else [])
  { valid := errors.isEmpty
    errors := errors }

-- =====================================================
-- SAMPLE DATA (concrete inputs used by witnesses and
-- counterexamples)
-- =====================================================

/-- A purchase invoice carrying ₦1,000 of input VAT, dated inside the
June 2025 period. -/
def sampleInputInvoice : VATInvoice :=
  { invoiceNumber := "INV-P1"
    invoiceDate := ⟨2025, 6, 5⟩
    customerName := "Supplier Ltd"
    grossAmount := 10000
    vatRate := 1 / 10
    vatAmount := 1000
    totalAmount := 11000
    invoiceType := InvoiceType.INPUT }

/-- A sales invoice carrying ₦1,500 of output VAT, dated inside the
July 2025 period. -/
def sampleOutputInvoice : VATInvoice :=
  { invoiceNumber := "INV-P2"
    invoiceDate := ⟨2025, 7, 10⟩
    customerName := "Customer Ltd"
    grossAmount := 15000
    vatRate := 1 / 10
    vatAmount := 1500
    totalAmount := 16500
    invoiceType := InvoiceType.OUTPUT }

/-- The two-period scenario of the spec: P1 ends with excess credit
1000, P2 has standalone net VAT payable 1500. -/
def samplePeriods : List PeriodInput :=
  [⟨[sampleInputInvoice], ⟨2025, 6, 1⟩, ⟨2025, 6, 30⟩⟩,
   ⟨[sampleOutputInvoice], ⟨2025, 7, 1⟩, ⟨2025, 7, 31⟩⟩]

/-- A standalone VAT position with net payable 1500, as P2 has before
carry-forward adjustment. -/
def samplePosition : VATPosition :=
  { period := "2025-7-1 to 2025-7-31"
    periodStart := ⟨2025, 7, 1⟩
    periodEnd := ⟨2025, 7, 31⟩
    outputVAT := 1500
    inputVAT := 0
    netVATPayable := 1500
    excessCredit := 0
    invoiceCount := ⟨1, 0, 1⟩
    summary := [] }

/-- A concrete stand-in for the JavaScript `Date` parser: parses the
one ISO string the sample invoices use. -/
def sampleParse : String → Option JSDate :=
  fun s => if s == "2025-06-01" then some ⟨2025, 6, 1⟩ else none

/-- A partial invoice whose only unusual field is `grossAmount = 0`
(every other requirement of the validator is satisfied). -/
def zeroGrossInvoice : PartialVATInvoice :=
  { invoiceNumber := some "INV-1"
    invoiceDate := some "2025-06-01"
    customerName := some "Acme Ltd"
    grossAmount := some 0
    vatRate := some (1 / 10)
    vatAmount := some 0
    invoiceType := some "OUTPUT" }

/-- A fully valid partial invoice. -/
def validSampleInvoice : PartialVATInvoice :=
  { invoiceNumber := some "INV-2"
    invoiceDate := some "2025-06-01"
    customerName := some "Acme Ltd"
    grossAmount := some 10000
    vatRate := some (1 / 10)
    vatAmount := some 1000
    invoiceType := some "OUTPUT" }

/-- The invoice of the spec end-to-end example: one standard line and
one explicitly basic line, dated 2025-06-01; the second standard line
has a description matching a basic-item keyword but no explicit flag. -/
def sampleCalcInvoice : CalcInvoiceInput :=
  { invoiceNumber := "INV-001"
    invoiceDate := ⟨2025, 6, 1⟩
    customerName := "Customer Ltd"
    lineItems :=
      [⟨"Laptop", 1, 500000, none⟩,
       ⟨"Rice 50kg", 2, 50000, some true⟩,
       ⟨"Fried rice cooker", 1, 30000, none⟩] }

-- =====================================================
-- THEOREMS
-- =====================================================

/-- Left folds of `+ vatAmount` are sums (the shape `reduce` takes in
the source). -/
theorem foldl_vatAmount_eq (l : List VATInvoice) (a : ℚ) :
    l.foldl (fun sum inv => sum + inv.vatAmount) a
      = a + (l.map VATInvoice.vatAmount).sum := by
  induction l generalizing a with
  | nil => simp
  | cons x xs ih => simp [ih, add_assoc]

/-- The clamped net/credit pair satisfies the accounting identity. -/
theorem clamp_identity (a b : ℚ) :
    max 0 (a - b) + b = a + max 0 (b - a) := by
  rcases le_total a b with h | h
  · rw [max_eq_left (by linarith), max_eq_right (by linarith)]
    ring
  · rw [max_eq_right (by linarith), max_eq_left (by linarith)]
    ring

/-- The two clamped directions of one difference are never both
non-zero. -/
theorem clamp_never_both (a b : ℚ) :
    max 0 (a - b) = 0 ∨ max 0 (b - a) = 0 := by
  rcases le_total a b with h | h
  · left
    exact max_eq_left (by linarith)
  · right
    exact max_eq_left (by linarith)

/-- Date comparison is reflexive: a boundary date is inside the
period. -/
theorem JSDate.le_refl (d : JSDate) : JSDate.le d d = true := by
  unfold JSDate.le
  rw [if_neg (lt_irrefl _), if_neg (lt_irrefl _), if_neg (lt_irrefl _),
    if_neg (lt_irrefl _)]
  simp

/-- C2: computeVATPosition keeps exactly the invoices with
periodStart ≤ invoiceDate ≤ periodEnd (inclusive at both ends — the
date comparison is reflexive, so boundary dates are kept), sets
outputVAT and inputVAT to the sums of vatAmount over the kept OUTPUT
and INPUT invoices, clamps netVATPayable and excessCredit to the two
directions of the same difference, and never leaves both non-zero. -/
theorem computeVATPosition_spec (invoices : List VATInvoice)
    (periodStart periodEnd : JSDate) :
    (computeVATPosition invoices periodStart periodEnd).outputVAT
        = (((invoices.filter (fun inv =>
              JSDate.le periodStart inv.invoiceDate &&
                JSDate.le inv.invoiceDate periodEnd)).filter
              (fun inv => inv.invoiceType == InvoiceType.OUTPUT)).map
                VATInvoice.vatAmount).sum ∧
    (computeVATPosition invoices periodStart periodEnd).inputVAT
        = (((invoices.filter (fun inv =>
              JSDate.le periodStart inv.invoiceDate &&
                JSDate.le inv.invoiceDate periodEnd)).filter
              (fun inv => inv.invoiceType == InvoiceType.INPUT)).map
                VATInvoice.vatAmount).sum ∧
    (computeVATPosition invoices periodStart periodEnd).netVATPayable
        = max 0 ((computeVATPosition invoices periodStart periodEnd).outputVAT -
            (computeVATPosition invoices periodStart periodEnd).inputVAT) ∧
    (computeVATPosition invoices periodStart periodEnd).excessCredit
        = max 0 ((computeVATPosition invoices periodStart periodEnd).inputVAT -
            (computeVATPosition invoices periodStart periodEnd).outputVAT) ∧
    (computeVATPosition invoices periodStart periodEnd).invoiceCount.total
        = (invoices.filter (fun inv =>
            JSDate.le periodStart inv.invoiceDate &&
              JSDate.le inv.invoiceDate periodEnd)).length ∧
    (∀ d : JSDate, JSDate.le d d = true) ∧
    ((computeVATPosition invoices periodStart periodEnd).netVATPayable = 0 ∨
     (computeVATPosition invoices periodStart periodEnd).excessCredit = 0) := by
  refine ⟨?_, ?_, ?_, ?_, ?_, JSDate.le_refl, ?_⟩
  · simp only [computeVATPosition]
    rw [foldl_vatAmount_eq, zero_add]
  · simp only [computeVATPosition]
    rw [foldl_vatAmount_eq, zero_add]
  · simp only [computeVATPosition]
  · simp only [computeVATPosition]
  · simp only [computeVATPosition]
  · simp only [computeVATPosition]
    exact clamp_never_both _ _

/-- C8 counterexample: after carry-forward adjustment the accounting
identity fails.  In the two-period sample (P1 excess credit 1000, P2
standalone net payable 1500) the returned P2 position has
netVATPayable = 500, inputVAT = 0, outputVAT = 1500, excessCredit = 0,
and 500 + 0 ≠ 1500 + 0. -/
theorem cumulativePosition_identity_fails :
    ((computeCumulativeVATPosition samplePeriods).get? 1).map
        (fun p => (p.netVATPayable, p.inputVAT, p.outputVAT, p.excessCredit))
      = some (500, 0, 1500, 0) ∧
    (500 : ℚ) + 0 ≠ 1500 + 0 := by
  refine ⟨?_, by norm_num⟩
  norm_num +decide [computeCumulativeVATPosition, cumulAux, cumulStep,
    computeVATPosition, samplePeriods, sampleInputInvoice,
    sampleOutputInvoice, JSDate.le]

/-- The standalone position satisfies the accounting identity (shared
helper). -/
theorem computeVATPosition_identity (invoices : List VATInvoice)
    (periodStart periodEnd : JSDate) :
    (computeVATPosition invoices periodStart periodEnd).netVATPayable +
        (computeVATPosition invoices periodStart periodEnd).inputVAT
      = (computeVATPosition invoices periodStart periodEnd).outputVAT +
        (computeVATPosition invoices periodStart periodEnd).excessCredit := by
  simp only [computeVATPosition]
  exact clamp_identity _ _

/-- The standalone net payable is non-negative (shared helper). -/
theorem computeVATPosition_net_nonneg (invoices : List VATInvoice)
    (periodStart periodEnd : JSDate) :
    0 ≤ (computeVATPosition invoices periodStart periodEnd).netVATPayable := by
  simp only [computeVATPosition]
  exact le_max_left _ _

/-- One cumulative step can only lower net payable, so the identity
relaxes to an inequality (shared helper). -/
theorem cumulStep_le (carry : ℚ) (pos : VATPosition)
    (hid : pos.netVATPayable + pos.inputVAT = pos.outputVAT + pos.excessCredit)
    (hnn : 0 ≤ pos.netVATPayable) :
    (cumulStep carry pos).1.netVATPayable + (cumulStep carry pos).1.inputVAT
      ≤ (cumulStep carry pos).1.outputVAT +
          (cumulStep carry pos).1.excessCredit := by
  unfold cumulStep
  by_cases hc : 0 < carry
  · rw [if_pos hc]
    simp only []
    have hle : max 0 (pos.netVATPayable - carry) ≤ pos.netVATPayable :=
      max_le hnn (by linarith)
    linarith
  · rw [if_neg hc]
    linarith

/-- Every position produced by the cumulative loop satisfies the
inequality form of the identity (shared helper). -/
theorem cumulAux_mem_le (periods : List PeriodInput) (carry : ℚ) :
    ∀ p ∈ (cumulAux carry periods).1,
      p.netVATPayable + p.inputVAT ≤ p.outputVAT + p.excessCredit := by
  induction periods generalizing carry with
  | nil => simp [cumulAux]
  | cons per rest ih =>
    intro p hp
    simp only [cumulAux, List.mem_cons] at hp
    rcases hp with rfl | hp
    · exact cumulStep_le _ _
        (computeVATPosition_identity per.invoices per.startDate per.endDate)
        (computeVATPosition_net_nonneg per.invoices per.startDate per.endDate)
    · exact ih _ _ hp

/-- C8 amended: every position returned by computeVATPosition satisfies
the accounting identity netVATPayable + inputVAT = outputVAT +
excessCredit; for positions returned by computeCumulativeVATPosition
the carry-forward adjustment can only lower netVATPayable while leaving
the other three fields unchanged, so the identity weakens to
netVATPayable + inputVAT ≤ outputVAT + excessCredit. -/
theorem vatPosition_identity :
    (∀ (invoices : List VATInvoice) (periodStart periodEnd : JSDate),
      (computeVATPosition invoices periodStart periodEnd).netVATPayable +
          (computeVATPosition invoices periodStart periodEnd).inputVAT
        = (computeVATPosition invoices periodStart periodEnd).outputVAT +
          (computeVATPosition invoices periodStart periodEnd).excessCredit) ∧
    (∀ periods, ∀ p ∈ computeCumulativeVATPosition periods,
      p.netVATPayable + p.inputVAT ≤ p.outputVAT + p.excessCredit) := by
  refine ⟨computeVATPosition_identity, ?_⟩
  intro periods p hp
  exact cumulAux_mem_le periods 0 p hp

/-- C8 amended witness: the adjusted P2 position of the two-period
sample satisfies the inequality. -/
theorem vatPosition_identity_witness :
    ∃ p, (computeCumulativeVATPosition samplePeriods).get? 1 = some p ∧
      p.netVATPayable + p.inputVAT ≤ p.outputVAT + p.excessCredit := by
  cases hp : (computeCumulativeVATPosition samplePeriods).get? 1 with
  | none =>
    have hlen : (computeCumulativeVATPosition samplePeriods).length = 2 := rfl
    rw [List.get?_eq_none, hlen] at hp
    omega
  | some p =>
    exact ⟨p, rfl,
      vatPosition_identity.2 samplePeriods p (List.get?_mem hp)⟩

/-- C3: computeCumulativeVATPosition is the left-to-right loop
(`cumulAux` starting from credit 0) whose step, when the carried credit
is positive, reduces the period's netVATPayable by
creditUsed = min(carryForwardCredit, netVATPayable), decrements the
accumulator by creditUsed, appends a summary note for the amount
applied, and in every case then increments the accumulator by the
period's unadjusted excessCredit; on the concrete two-period sample
(P1 excessCredit 1000, P2 standalone netVATPayable 1500) the returned
P2 position has netVATPayable 500 and the final carry-forward is 0. -/
theorem computeCumulativeVATPosition_spec :
    (∀ periods, computeCumulativeVATPosition periods = (cumulAux 0 periods).1) ∧
    (∀ (carry : ℚ) (pos : VATPosition), 0 < carry →
      (cumulStep carry pos).1.netVATPayable
          = pos.netVATPayable - min carry pos.netVATPayable ∧
      (cumulStep carry pos).2
          = carry - min carry pos.netVATPayable + pos.excessCredit ∧
      (cumulStep carry pos).1.summary
          = pos.summary ++
            ["", "Carry-forward credit applied: ₦" ++
              formatCurrency (min carry pos.netVATPayable)] ∧
      (cumulStep carry pos).1.excessCredit = pos.excessCredit ∧
      (cumulStep carry pos).1.outputVAT = pos.outputVAT ∧
      (cumulStep carry pos).1.inputVAT = pos.inputVAT) ∧
    (∀ (carry : ℚ) (pos : VATPosition), carry ≤ 0 →
      cumulStep carry pos = (pos, carry + pos.excessCredit)) ∧
    ((computeCumulativeVATPosition samplePeriods).get? 1).map
        (fun p => p.netVATPayable) = some 500 ∧
    (cumulAux 0 samplePeriods).2 = 0 := by
  refine ⟨fun periods => rfl, ?_, ?_, ?_, ?_⟩
  · intro carry pos hc
    have hcu : pos.netVATPayable - max 0 (pos.netVATPayable - carry)
        = min carry pos.netVATPayable := by
      rcases le_total pos.netVATPayable carry with h | h
      · rw [max_eq_left (by linarith), min_eq_right h]
        ring
      · rw [max_eq_right (by linarith), min_eq_left h]
        ring
    unfold cumulStep
    rw [if_pos hc]
    refine ⟨by simp only []; linarith, by simp only []; rw [hcu],
      by simp only []; rw [hcu], rfl, rfl, rfl⟩
  · intro carry pos hc
    unfold cumulStep
    rw [if_neg (not_lt.mpr hc)]
  · norm_num +decide [computeCumulativeVATPosition, cumulAux, cumulStep,
      computeVATPosition, samplePeriods, sampleInputInvoice,
      sampleOutputInvoice, JSDate.le]
  · norm_num +decide [cumulAux, cumulStep,
      computeVATPosition, samplePeriods, sampleInputInvoice,
      sampleOutputInvoice, JSDate.le]

/-- C3 witness: the characterized step applied at carry 1000 to the
concrete standalone position with net payable 1500 gives net payable
500. -/
theorem computeCumulativeVATPosition_spec_witness :
    (0 : ℚ) < 1000 ∧
    (cumulStep 1000 samplePosition).1.netVATPayable
        = samplePosition.netVATPayable - min 1000 samplePosition.netVATPayable :=
  ⟨by norm_num,
   (computeCumulativeVATPosition_spec.2.1 1000 samplePosition (by norm_num)).1⟩

/-- The accumulating fold of `calculateInvoiceVAT`, characterized
(shared helper). -/
theorem calcFold_spec (rate : ℚ) (items : List VATLineItem)
    (acc : List CalculatedLineItem × ℚ × ℚ) :
    items.foldl
      (fun (acc : List CalculatedLineItem × ℚ × ℚ) item =>
        (acc.1 ++ [calcLineItem rate item],
         acc.2.1 + (calcLineItem rate item).lineTotal,
         acc.2.2 + (calcLineItem rate item).vat)) acc
      = (acc.1 ++ items.map (calcLineItem rate),
         acc.2.1 + (items.map (fun item => (calcLineItem rate item).lineTotal)).sum,
         acc.2.2 + (items.map (fun item => (calcLineItem rate item).vat)).sum) := by
  induction items generalizing acc with
  | nil => simp
  | cons x xs ih => simp [ih, add_assoc]

/-- The per-line breakdown is the map of `calcLineItem` over the input
lines (shared helper). -/
theorem calculateInvoiceVAT_lineItems (invoice : CalcInvoiceInput) :
    (calculateInvoiceVAT invoice).lineItems
      = invoice.lineItems.map (calcLineItem (getVATRate invoice.invoiceDate)) := by
  simp only [calculateInvoiceVAT, calcFold_spec]
  simp

/-- One line's VAT in terms of its own flag and lineTotal (shared
helper). -/
theorem calcLineItem_vat (rate : ℚ) (item : VATLineItem) :
    (calcLineItem rate item).vat
      = (if (calcLineItem rate item).isBasicItem.getD false then 0
         else (calcLineItem rate item).lineTotal * rate) := by
  simp only [calcLineItem]
  by_cases hb : item.isBasicItem.getD false
  · simp [hb, VAT_RATES.BASIC_ITEMS]
  · simp [hb]

/-- C4: calculateInvoiceVAT computes each line's
lineTotal = quantity × unitPrice and returns subtotal = Σ lineTotal and
vatAmount = Σ lineVAT over the per-line breakdown, with
totalAmount = subtotal + vatAmount, all exactly. -/
theorem calculateInvoiceVAT_totals (invoice : CalcInvoiceInput) :
    (calculateInvoiceVAT invoice).lineItems
        = invoice.lineItems.map (calcLineItem (getVATRate invoice.invoiceDate)) ∧
    (∀ li ∈ (calculateInvoiceVAT invoice).lineItems,
        li.lineTotal = li.quantity * li.unitPrice) ∧
    (calculateInvoiceVAT invoice).subtotal
        = ((calculateInvoiceVAT invoice).lineItems.map
            (fun li => li.lineTotal)).sum ∧
    (calculateInvoiceVAT invoice).vatAmount
        = ((calculateInvoiceVAT invoice).lineItems.map (fun li => li.vat)).sum ∧
    (calculateInvoiceVAT invoice).totalAmount
        = (calculateInvoiceVAT invoice).subtotal +
            (calculateInvoiceVAT invoice).vatAmount := by
  refine ⟨calculateInvoiceVAT_lineItems invoice, ?_, ?_, ?_, ?_⟩
  · intro li hli
    rw [calculateInvoiceVAT_lineItems] at hli
    obtain ⟨item, _, rfl⟩ := List.mem_map.mp hli
    simp [calcLineItem]
  · rw [calculateInvoiceVAT_lineItems]
    simp only [calculateInvoiceVAT, calcFold_spec]
    simp [List.map_map]
    rfl
  · rw [calculateInvoiceVAT_lineItems]
    simp only [calculateInvoiceVAT, calcFold_spec]
    simp [List.map_map]
    rfl
  · simp only [calculateInvoiceVAT, calcFold_spec]

/-- C5: in calculateInvoiceVAT a line is zero-rated exactly when its
isBasicItem flag is explicitly true: such a line contributes vat = 0
regardless of the invoice date, and a line whose flag is false or
absent is taxed at the standard rate for the invoice date even when its
description matches a basic-item keyword — the keyword inference
isBasicItem(description) is never consulted. -/
theorem calculateInvoiceVAT_basic_flag_only (invoice : CalcInvoiceInput) :
    (∀ li ∈ (calculateInvoiceVAT invoice).lineItems,
      li.vat = (if li.isBasicItem.getD false then 0
                else li.lineTotal * getVATRate invoice.invoiceDate)) ∧
    (∀ li ∈ (calculateInvoiceVAT invoice).lineItems,
      li.isBasicItem = some true → li.vat = 0) ∧
    (∀ li ∈ (calculateInvoiceVAT invoice).lineItems,
      li.isBasicItem ≠ some true → isBasicItem li.description = true →
        li.vat = li.lineTotal * getVATRate invoice.invoiceDate) := by
  have hvat : ∀ li ∈ (calculateInvoiceVAT invoice).lineItems,
      li.vat = (if li.isBasicItem.getD false then 0
                else li.lineTotal * getVATRate invoice.invoiceDate) := by
    intro li hli
    rw [calculateInvoiceVAT_lineItems] at hli
    obtain ⟨item, _, rfl⟩ := List.mem_map.mp hli
    exact calcLineItem_vat _ item
  refine ⟨hvat, ?_, ?_⟩
  · intro li hli hflag
    rw [hvat li hli, hflag]
    simp
  · intro li hli hflag _
    rw [hvat li hli]
    have : li.isBasicItem.getD false = false := by
      cases hob : li.isBasicItem with
      | none => simp
      | some b =>
        cases b with
        | false => simp
        | true => exact absurd hob hflag
    rw [this]
    simp

/-- The evaluated line breakdown of the sample invoice (shared
helper for witnesses). -/
theorem sample_lineItems_eval :
    (calculateInvoiceVAT sampleCalcInvoice).lineItems
      = [⟨"Laptop", 1, 500000, none, 500000, 50000, 550000⟩,
         ⟨"Rice 50kg", 2, 50000, some true, 100000, 0, 100000⟩,
         ⟨"Fried rice cooker", 1, 30000, none, 30000, 3000, 33000⟩] := by
  rw [calculateInvoiceVAT_lineItems]
  norm_num +decide [sampleCalcInvoice, calcLineItem, getVATRate,
    VAT_RATES.STANDARD_2025, VAT_RATES.BASIC_ITEMS]

/-- C4 witness: on the sample invoice the Laptop line is in the
breakdown with lineTotal = 1 × 500000, and the totals identity holds. -/
theorem calculateInvoiceVAT_totals_witness :
    (⟨"Laptop", 1, 500000, none, 500000, 50000, 550000⟩ : CalculatedLineItem)
        ∈ (calculateInvoiceVAT sampleCalcInvoice).lineItems ∧
    (500000 : ℚ) = 1 * 500000 ∧
    (calculateInvoiceVAT sampleCalcInvoice).totalAmount
        = (calculateInvoiceVAT sampleCalcInvoice).subtotal +
            (calculateInvoiceVAT sampleCalcInvoice).vatAmount := by
  have hmem : (⟨"Laptop", 1, 500000, none, 500000, 50000, 550000⟩ :
      CalculatedLineItem) ∈ (calculateInvoiceVAT sampleCalcInvoice).lineItems := by
    rw [sample_lineItems_eval]
    simp
  exact ⟨hmem, (calculateInvoiceVAT_totals sampleCalcInvoice).2.1 _ hmem,
    (calculateInvoiceVAT_totals sampleCalcInvoice).2.2.2.2⟩

/-- C5 witness: on the sample invoice the explicitly basic Rice line
contributes vat 0, while the keyword-matching but unflagged
Fried-rice-cooker line is taxed at the standard 2025 rate. -/
theorem calculateInvoiceVAT_basic_flag_only_witness :
    (⟨"Rice 50kg", 2, 50000, some true, 100000, 0, 100000⟩ : CalculatedLineItem)
        ∈ (calculateInvoiceVAT sampleCalcInvoice).lineItems ∧
    (0 : ℚ) = 0 ∧
    isBasicItem "Fried rice cooker" = true ∧
    (⟨"Fried rice cooker", 1, 30000, none, 30000, 3000, 33000⟩ : CalculatedLineItem)
        ∈ (calculateInvoiceVAT sampleCalcInvoice).lineItems ∧
    (3000 : ℚ) = 30000 * getVATRate ⟨2025, 6, 1⟩ := by
  have hmem1 : (⟨"Rice 50kg", 2, 50000, some true, 100000, 0, 100000⟩ :
      CalculatedLineItem) ∈ (calculateInvoiceVAT sampleCalcInvoice).lineItems := by
    rw [sample_lineItems_eval]
    simp
  have hmem2 : (⟨"Fried rice cooker", 1, 30000, none, 30000, 3000, 33000⟩ :
      CalculatedLineItem) ∈ (calculateInvoiceVAT sampleCalcInvoice).lineItems := by
    rw [sample_lineItems_eval]
    simp
  refine ⟨hmem1,
    (calculateInvoiceVAT_basic_flag_only sampleCalcInvoice).2.1 _ hmem1 rfl,
    by decide, hmem2,
    (calculateInvoiceVAT_basic_flag_only sampleCalcInvoice).2.2 _ hmem2
      (by simp) (by decide)⟩

/-- C6: for every date, getVATRate returns 0.10 when the calendar year
is 2025, 0.125 when the year is between 2026 and 2029 inclusive, and
0.15 when the year is 2030 or later; the result depends only on the
calendar year component of the date. -/
theorem getVATRate_by_year (date : JSDate) :
    (date.year = 2025 → getVATRate date = 1 / 10) ∧
    (2026 ≤ date.year → date.year ≤ 2029 → getVATRate date = 125 / 1000) ∧
    (2030 ≤ date.year → getVATRate date = 15 / 100) ∧
    (∀ d2 : JSDate, d2.year = date.year → getVATRate d2 = getVATRate date) := by
  unfold getVATRate VAT_RATES.STANDARD_2025 VAT_RATES.STANDARD_2026_2029
    VAT_RATES.STANDARD_2030
  refine ⟨?_, ?_, ?_, ?_⟩
  · intro h
    rw [if_pos h]
  · intro h1 h2
    rw [if_neg (by omega), if_pos ⟨h1, h2⟩]
  · intro h
    rw [if_neg (by omega), if_neg (by omega)]
  · intro d2 h
    rw [h]

/-- C6 witness: a concrete 2025 date receives the 10% rate. -/
theorem getVATRate_by_year_witness :
    getVATRate ⟨2025, 6, 1⟩ = 1 / 10 :=
  (getVATRate_by_year ⟨2025, 6, 1⟩).1 rfl

/-- C10: for every date whose calendar year is earlier than 2025,
getVATRate falls through to the final branch and returns 0.15 (the
2030-and-beyond rate), never the 10% or 12.5% rates. -/
theorem getVATRate_pre2025 (date : JSDate) (h : date.year < 2025) :
    getVATRate date = 15 / 100 ∧
    getVATRate date = VAT_RATES.STANDARD_2030 ∧
    getVATRate date ≠ VAT_RATES.STANDARD_2025 ∧
    getVATRate date ≠ VAT_RATES.STANDARD_2026_2029 := by
  have hrate : getVATRate date = VAT_RATES.STANDARD_2030 := by
    unfold getVATRate
    rw [if_neg (by omega), if_neg (by omega)]
  refine ⟨?_, hrate, ?_, ?_⟩
  · rw [hrate]; rfl
  · rw [hrate]
    unfold VAT_RATES.STANDARD_2030 VAT_RATES.STANDARD_2025
    norm_num
  · rw [hrate]
    unfold VAT_RATES.STANDARD_2030 VAT_RATES.STANDARD_2026_2029
    norm_num

/-- C10 witness: a concrete 2024 date receives the 15% rate. -/
theorem getVATRate_pre2025_witness :
    getVATRate ⟨2024, 1, 1⟩ = 15 / 100 :=
  (getVATRate_pre2025 ⟨2024, 1, 1⟩ (by norm_num)).1

/-- C1: for every input with non-negative turnover and fixedAssets,
classifyEntity succeeds and returns classification SMALL if and only if
turnover ≤ 50,000,000 and fixedAssets ≤ 250,000,000 (both inclusive)
and isProfessionalServices is false; and citExempt = true together with
devLevyApplicable = false holds exactly when the classification is
SMALL, with citExempt = false and devLevyApplicable = true when
STANDARD. -/
theorem classifyEntity_small_iff (input : ClassificationInput)
    (h1 : 0 ≤ input.turnover) (h2 : 0 ≤ input.fixedAssets) :
    ∃ r, classifyEntity input = Except.ok r ∧
      (r.classification = Classification.SMALL ↔
        (input.turnover ≤ CLASSIFICATION_THRESHOLDS.TURNOVER_THRESHOLD ∧
         input.fixedAssets ≤ CLASSIFICATION_THRESHOLDS.ASSETS_THRESHOLD ∧
         input.isProfessionalServices = false)) ∧
      ((r.citExempt = true ∧ r.devLevyApplicable = false) ↔
        r.classification = Classification.SMALL) ∧
      (r.classification = Classification.STANDARD →
        (r.citExempt = false ∧ r.devLevyApplicable = true)) := by
  have hneg : ¬(input.turnover < 0 ∨ input.fixedAssets < 0) := by
    push_neg
    exact ⟨h1, h2⟩
  unfold classifyEntity
  rw [if_neg hneg]
  have hpf : input.isProfessionalServices = true ∨
      input.isProfessionalServices = false := by
    cases input.isProfessionalServices <;> simp
  rcases hpf with hp | hp
  · rw [if_pos hp]
    refine ⟨_, rfl, ?_, ?_, ?_⟩
    · simp [buildStandardResult, hp]
    · simp [buildStandardResult]
    · simp [buildStandardResult]
  · rw [if_neg (by simp [hp])]
    by_cases ht : input.turnover ≤ CLASSIFICATION_THRESHOLDS.TURNOVER_THRESHOLD
    · by_cases ha : input.fixedAssets ≤ CLASSIFICATION_THRESHOLDS.ASSETS_THRESHOLD
      · have hsm : (decide (input.turnover ≤ CLASSIFICATION_THRESHOLDS.TURNOVER_THRESHOLD) &&
            decide (input.fixedAssets ≤ CLASSIFICATION_THRESHOLDS.ASSETS_THRESHOLD)) = true := by
          simp [ht, ha]
        simp only [hsm]
        refine ⟨_, rfl, ?_, ?_, ?_⟩
        · simp [ht, ha, hp]
        · simp
        · simp
      · have hsm : (decide (input.turnover ≤ CLASSIFICATION_THRESHOLDS.TURNOVER_THRESHOLD) &&
            decide (input.fixedAssets ≤ CLASSIFICATION_THRESHOLDS.ASSETS_THRESHOLD)) = false := by
          simp [ha]
        simp only [hsm]
        refine ⟨_, rfl, ?_, ?_, ?_⟩
        · simp [buildStandardResult, ha]
        · simp [buildStandardResult]
        · simp [buildStandardResult]
    · have hsm : (decide (input.turnover ≤ CLASSIFICATION_THRESHOLDS.TURNOVER_THRESHOLD) &&
          decide (input.fixedAssets ≤ CLASSIFICATION_THRESHOLDS.ASSETS_THRESHOLD)) = false := by
        simp [ht]
      simp only [hsm]
      refine ⟨_, rfl, ?_, ?_, ?_⟩
      · simp [buildStandardResult, ht]
      · simp [buildStandardResult]
      · simp [buildStandardResult]

/-- C1 witness: at the exact thresholds (turnover 50,000,000 and
fixedAssets 250,000,000, not professional services) the theorem
instantiates and the inclusive comparisons classify the entity SMALL
with citExempt true and devLevyApplicable false. -/
theorem classifyEntity_small_iff_witness :
    (0 : ℚ) ≤ 50000000 ∧ (0 : ℚ) ≤ 250000000 ∧
    (∃ r, classifyEntity ⟨50000000, 250000000, false, none⟩ = Except.ok r ∧
      r.classification = Classification.SMALL ∧
      r.citExempt = true ∧ r.devLevyApplicable = false) := by
  obtain ⟨r, hok, hiff, hexempt, _⟩ :=
    classifyEntity_small_iff ⟨50000000, 250000000, false, none⟩
      (by norm_num) (by norm_num)
  have hsmall : r.classification = Classification.SMALL :=
    hiff.mpr ⟨by unfold CLASSIFICATION_THRESHOLDS.TURNOVER_THRESHOLD; norm_num,
      by unfold CLASSIFICATION_THRESHOLDS.ASSETS_THRESHOLD; norm_num, rfl⟩
  obtain ⟨h1, h2⟩ := hexempt.mpr hsmall
  exact ⟨by norm_num, by norm_num, r, hok, hsmall, h1, h2⟩

/-- C7 counterexample: an entity classified STANDARD carries
citRate = 0.25 and devLevyRate = 0.04 unconditionally, while the rate
schedule gives CIT 27.5% for evaluation year 2025 and Development Levy
3% for evaluation year 2027 — so the returned rates do not equal the
schedule values for those years. -/
theorem classifyEntity_standard_rates_ne_schedule :
    (classifyEntity ⟨60000000, 0, false, none⟩).map
        (fun r => (r.classification, r.taxImplications.citRate,
                   r.taxImplications.devLevyRate))
      = Except.ok (Classification.STANDARD, 25 / 100, 4 / 100) ∧
    getCITRate 2025 = 275 / 1000 ∧
    getDevelopmentLevyRate 2027 = 3 / 100 ∧
    (25 / 100 : ℚ) ≠ 275 / 1000 ∧
    (4 / 100 : ℚ) ≠ 3 / 100 := by
  refine ⟨by rfl, by rfl, by rfl, by norm_num, by norm_num⟩

/-- C7 amended: every input that classifyEntity classifies as STANDARD
gets the fixed rates citRate = 0.25 (the 2026-onward CIT constant) and
devLevyRate = 0.04 (the 2025–2026 levy constant), independent of any
evaluation year; the year-dependent schedule with the claimed
boundaries is implemented by the helpers getCITRate and
getDevelopmentLevyRate, which classifyEntity does not consult. -/
theorem classifyEntity_standard_rates_fixed (input : ClassificationInput)
    (h1 : 0 ≤ input.turnover) (h2 : 0 ≤ input.fixedAssets)
    (h : input.isProfessionalServices = true ∨
         ¬(input.turnover ≤ CLASSIFICATION_THRESHOLDS.TURNOVER_THRESHOLD ∧
           input.fixedAssets ≤ CLASSIFICATION_THRESHOLDS.ASSETS_THRESHOLD)) :
    ∃ r, classifyEntity input = Except.ok r ∧
      r.classification = Classification.STANDARD ∧
      r.taxImplications.citRate = TAX_RATES.CIT_2026_ONWARDS ∧
      r.taxImplications.devLevyRate = TAX_RATES.DEV_LEVY_2025_2026 ∧
      (∀ year : Int, year = 2025 → getCITRate year = 275 / 1000) ∧
      (∀ year : Int, year = 2025 → getCITRate year ≠ TAX_RATES.CIT_2026_ONWARDS) ∧
      (∀ year : Int, 2026 ≤ year → getCITRate year = 25 / 100) ∧
      (∀ year : Int, 2025 ≤ year → year ≤ 2026 →
        getDevelopmentLevyRate year = 4 / 100) ∧
      (∀ year : Int, 2027 ≤ year → year ≤ 2029 →
        getDevelopmentLevyRate year = 3 / 100) ∧
      (∀ year : Int, 2030 ≤ year → getDevelopmentLevyRate year = 2 / 100) := by
  have hsched :
      (∀ year : Int, year = 2025 → getCITRate year = 275 / 1000) ∧
      (∀ year : Int, year = 2025 → getCITRate year ≠ TAX_RATES.CIT_2026_ONWARDS) ∧
      (∀ year : Int, 2026 ≤ year → getCITRate year = 25 / 100) ∧
      (∀ year : Int, 2025 ≤ year → year ≤ 2026 →
        getDevelopmentLevyRate year = 4 / 100) ∧
      (∀ year : Int, 2027 ≤ year → year ≤ 2029 →
        getDevelopmentLevyRate year = 3 / 100) ∧
      (∀ year : Int, 2030 ≤ year → getDevelopmentLevyRate year = 2 / 100) := by
    unfold getCITRate getDevelopmentLevyRate TAX_RATES.CIT_2025
      TAX_RATES.CIT_2026_ONWARDS TAX_RATES.DEV_LEVY_2025_2026
      TAX_RATES.DEV_LEVY_2027_2029 TAX_RATES.DEV_LEVY_2030_ONWARDS
    refine ⟨?_, ?_, ?_, ?_, ?_, ?_⟩
    · intro year hy; rw [if_pos hy]
    · intro year hy; rw [if_pos hy]; norm_num
    · intro year hy; rw [if_neg (by omega)]
    · intro year hy1 hy2; rw [if_pos ⟨hy1, hy2⟩]
    · intro year hy1 hy2; rw [if_neg (by omega), if_pos ⟨hy1, hy2⟩]
    · intro year hy; rw [if_neg (by omega), if_neg (by omega)]
  have hneg : ¬(input.turnover < 0 ∨ input.fixedAssets < 0) := by
    push_neg
    exact ⟨h1, h2⟩
  unfold classifyEntity
  rw [if_neg hneg]
  rcases h with hp | hth
  · rw [if_pos hp]
    exact ⟨_, rfl, rfl, rfl, rfl, hsched⟩
  · have hpf : input.isProfessionalServices = true ∨
        input.isProfessionalServices = false := by
      cases input.isProfessionalServices <;> simp
    rcases hpf with hp | hp
    · rw [if_pos hp]
      exact ⟨_, rfl, rfl, rfl, rfl, hsched⟩
    · rw [if_neg (by simp [hp])]
      have hsm : (decide (input.turnover ≤ CLASSIFICATION_THRESHOLDS.TURNOVER_THRESHOLD) &&
          decide (input.fixedAssets ≤ CLASSIFICATION_THRESHOLDS.ASSETS_THRESHOLD)) = false := by
        rcases not_and_or.mp hth with hcase | hcase <;> simp [hcase]
      simp only [hsm]
      exact ⟨_, rfl, rfl, rfl, rfl, hsched⟩

/-- C7 amended witness: the concrete over-threshold entity
(turnover 60,000,000) instantiates the amended theorem. -/
theorem classifyEntity_standard_rates_fixed_witness :
    (0 : ℚ) ≤ 60000000 ∧
    (∃ r, classifyEntity ⟨60000000, 0, false, none⟩ = Except.ok r ∧
      r.classification = Classification.STANDARD ∧
      r.taxImplications.citRate = TAX_RATES.CIT_2026_ONWARDS ∧
      r.taxImplications.devLevyRate = TAX_RATES.DEV_LEVY_2025_2026 ∧
      getCITRate 2025 = 275 / 1000 ∧
      getDevelopmentLevyRate 2027 = 3 / 100) := by
  obtain ⟨r, hok, hstd, hcit, hdev, hsched⟩ :=
    classifyEntity_standard_rates_fixed ⟨60000000, 0, false, none⟩
      (by norm_num) (by norm_num)
      (Or.inr (by
        unfold CLASSIFICATION_THRESHOLDS.TURNOVER_THRESHOLD
        norm_num))
  exact ⟨by norm_num, r, hok, hstd, hcit, hdev,
    hsched.1 2025 rfl,
    hsched.2.2.2.2.1 2027 (by norm_num) (by norm_num)⟩

/-- C9 counterexample: a partial invoice satisfying every requirement
of the claim — grossAmount present and equal to 0 (so ≥ 0), all other
fields present and consistent (|0 − 0 × 0.1| = 0 ≤ 0.01) — is still
rejected: JavaScript falsiness (`!invoice.grossAmount`) treats the
present zero amount as missing. -/
theorem validateVATInvoice_zero_gross :
    (validateVATInvoice sampleParse zeroGrossInvoice).valid = false ∧
    (validateVATInvoice sampleParse zeroGrossInvoice).errors
        = ["Valid gross amount is required"] ∧
    zeroGrossInvoice.grossAmount = some 0 ∧
    (0 : ℚ) ≤ 0 ∧
    |(0 : ℚ) - 0 * (1 / 10)| ≤ 1 / 100 := by
  refine ⟨?_, ?_, rfl, by norm_num, by norm_num⟩
  · norm_num +decide [validateVATInvoice, zeroGrossInvoice, sampleParse,
      truthyStr, truthyNum]
  · norm_num +decide [validateVATInvoice, zeroGrossInvoice, sampleParse,
      truthyStr, truthyNum]

/-- C9 amended: validateVATInvoice never throws (it is a total
function) and returns valid = true — equivalently, an empty error
list — if and only if invoiceNumber and customerName are present and
non-empty, invoiceDate is present, non-empty and parseable,
grossAmount is present and strictly positive (a present zero is
rejected as missing by the truthiness check), invoiceType is OUTPUT or
INPUT, and, whenever grossAmount is present and non-zero and vatRate
is present, |vatAmount − grossAmount × vatRate| ≤ 0.01 with an absent
vatAmount read as 0; when invalid it collects one error per violated
check. -/
theorem validateVATInvoice_valid_iff (parseDate : String → Option JSDate)
    (invoice : PartialVATInvoice) :
    ((validateVATInvoice parseDate invoice).valid = true ↔
      (truthyStr invoice.invoiceNumber = true ∧
       (∃ s, invoice.invoiceDate = some s ∧ s ≠ "" ∧
         (parseDate s).isSome = true) ∧
       truthyStr invoice.customerName = true ∧
       (∃ g, invoice.grossAmount = some g ∧ 0 < g) ∧
       (invoice.invoiceType = some "OUTPUT" ∨
        invoice.invoiceType = some "INPUT") ∧
       (∀ g r, invoice.grossAmount = some g → g ≠ 0 →
         invoice.vatRate = some r →
         |invoice.vatAmount.getD 0 - g * r| ≤ 1 / 100))) ∧
    ((validateVATInvoice parseDate invoice).valid = true ↔
      (validateVATInvoice parseDate invoice).errors = []) := by
  have hempty : ∀ l : List String, (l.isEmpty = true) ↔ l = [] := by
    intro l
    cases l <;> simp
  have hvalid : (validateVATInvoice parseDate invoice).valid
      = (validateVATInvoice parseDate invoice).errors.isEmpty := by
    simp only [validateVATInvoice]
  have herr : (validateVATInvoice parseDate invoice).errors = [] ↔
      (truthyStr invoice.invoiceNumber = true ∧
       (∃ s, invoice.invoiceDate = some s ∧ s ≠ "" ∧
         (parseDate s).isSome = true) ∧
       truthyStr invoice.customerName = true ∧
       (∃ g, invoice.grossAmount = some g ∧ 0 < g) ∧
       (invoice.invoiceType = some "OUTPUT" ∨
        invoice.invoiceType = some "INPUT") ∧
       (∀ g r, invoice.grossAmount = some g → g ≠ 0 →
         invoice.vatRate = some r →
         |invoice.vatAmount.getD 0 - g * r| ≤ 1 / 100)) := by
    obtain ⟨num, date, name, tin, gross, rate, vatAmt, total, ty⟩ := invoice
    simp only [validateVATInvoice, List.append_eq_nil]
    refine Iff.trans (Iff.of_eq (by rfl)) ?_
    constructor
    · rintro ⟨⟨⟨⟨⟨hA, hB⟩, hC⟩, hD⟩, hE⟩, hF⟩
      refine ⟨?_, ?_, ?_, ?_, ?_, ?_⟩
      · by_cases hb : truthyStr num
        · exact hb
        · simp [hb] at hA
      · cases date with
        | none => simp at hB
        | some s =>
          refine ⟨s, rfl, ?_, ?_⟩
          · intro hs
            simp [hs] at hB
          · by_cases hs : s == ""
            · simp [hs] at hB
            · cases hps : parseDate s with
              | none => simp [hs, hps] at hB
              | some d => simp
      · by_cases hb : truthyStr name
        · exact hb
        · simp [hb] at hC
      · cases gross with
        | none => simp [truthyNum] at hD
        | some g =>
          by_cases hg : g = 0
          · simp [truthyNum, hg] at hD
          · by_cases hgl : g < 0
            · simp [truthyNum, hg, hgl] at hD
            · exact ⟨g, rfl, lt_of_le_of_ne (not_lt.mp hgl) (Ne.symm hg)⟩
      · cases ty with
        | none => simp [truthyStr] at hE
        | some t =>
          by_cases h1 : t = "OUTPUT"
          · exact Or.inl (by rw [h1])
          · by_cases h2 : t = "INPUT"
            · exact Or.inr (by rw [h2])
            · simp [truthyStr, h1, h2] at hE
      · rintro g r rfl hg rfl
        simp only [truthyNum, Option.isSome_some, Bool.and_true,
          Option.getD_some] at hF
        simp [beq_iff_eq, hg] at hF
        linarith [hF]
    · rintro ⟨hA, ⟨s, rfl, hs, hps⟩, hC, ⟨g, rfl, hg⟩, hE, hF⟩
      obtain ⟨d, hd⟩ := Option.isSome_iff_exists.mp hps
      have hgne : g ≠ 0 := ne_of_gt hg
      have hgnl : ¬g < 0 := not_lt.mpr (le_of_lt hg)
      refine ⟨⟨⟨⟨⟨?_, ?_⟩, ?_⟩, ?_⟩, ?_⟩, ?_⟩
      · simp [hA]
      · simp [hs, hd]
      · simp [hC]
      · simp [truthyNum, hgne, hgnl]
      · rcases hE with h | h <;> subst h <;> simp +decide [truthyStr]
      · cases rate with
        | none => simp [truthyNum]
        | some r =>
          have := hF g r rfl hgne rfl
          simp only [truthyNum, Option.isSome_some, Bool.and_true,
            Option.getD_some]
          simp [beq_iff_eq, hgne]
          linarith [this]
  refine ⟨?_, ?_⟩
  · rw [hvalid, hempty _]
    exact herr
  · rw [hvalid, hempty _]

/-- C9 amended witness: a fully valid concrete invoice is accepted. -/
theorem validateVATInvoice_valid_iff_witness :
    (validateVATInvoice sampleParse validSampleInvoice).valid = true :=
  ((validateVATInvoice_valid_iff sampleParse validSampleInvoice).1).mpr
    ⟨by decide,
     ⟨"2025-06-01", rfl, by decide, by decide⟩,
     by decide,
     ⟨10000, rfl, by norm_num⟩,
     Or.inl rfl,
     by
       rintro g r hg hgne hr
       have hg2 := Option.some.inj hg
       have hr2 := Option.some.inj hr
       subst hg2
       subst hr2
       norm_num [validSampleInvoice]⟩

end TaxEngine
